import Mathlib

/-!
Verification of `puppetboard/utils.py`: helper functions that translate
backend-client errors into HTTP responses, guard streamed sequences,
gate on the backend version, and format values for display.

Python exceptions raised by a backend call are embedded as an explicit
error value (`PyError`); a backend call is an `Except PyError α`.
Python `flask.abort(status)` and `sys.exit(code)` are embedded as
explicit outcome constructors.  Logging is a side effect with no
observable influence on outcomes and is not modelled.
-/

namespace Puppetboard

/-- Classification of the exceptions the module handles: `requests`
`HTTPError` (carrying `e.response.status_code`), `requests`
`ConnectionError`, pypuppetdb `EmptyResponseError`, and any other
exception (identified by a name for bookkeeping).  These Python classes
are pairwise unrelated by inheritance, so a disjoint sum is faithful. -/
inductive PyError where
  | httpError (statusCode : Nat)
  | connectionError
  | emptyResponseError
  | other (name : String)
deriving DecidableEq

/-- Outcome of `_do_get_or_abort`: either the wrapped call's result is
returned unchanged, or the request is aborted with an HTTP status code
(`flask.abort`), or the original error is re-raised to the caller. -/
inductive GetOutcome (α : Type) where
  | value (a : α)
  | abort (status : Nat)
  | reraise (e : PyError)
deriving DecidableEq

/-- Embedding of `_do_get_or_abort` (utils.py lines 112-139).  The
`try` body returns the call's result; the `except` clauses are tried in
source order: `HTTPError` (re-raise when `reraise_client_error` and
`400 <= e.response.status_code <= 499`, else abort with that status),
`ConnectionError` (abort 500), `EmptyResponseError` (abort 204),
bare `Exception` (abort 500). -/
def _do_get_or_abort {α : Type} (reraise_client_error : Bool) (call : Except PyError α) :
    GetOutcome α :=
  match call with
  | .ok result => .value result
  | .error (.httpError code) =>
      if reraise_client_error ∧ 400 ≤ code ∧ code ≤ 499 then
        .reraise (.httpError code)
      else
        .abort code
  | .error .connectionError => .abort 500
  | .error .emptyResponseError => .abort 204
  | .error (.other _) => .abort 500

/-- Embedding of `get_or_abort`: delegate with `reraise_client_error = False`. -/
def get_or_abort {α : Type} (call : Except PyError α) : GetOutcome α :=
  _do_get_or_abort false call

/-- Embedding of `get_or_abort_except_client_errors`: delegate with
`reraise_client_error = True`. -/
def get_or_abort_except_client_errors {α : Type} (call : Except PyError α) : GetOutcome α :=
  _do_get_or_abort true call

/-- Whether every remaining release component is zero (the padding
that `packaging.version` treats as absent). -/
def allZero : List Nat → Bool
  | [] => true
  | x :: xs => x == 0 && allZero xs

/-- Comparison of dotted numeric version strings as `packaging.version`
compares plain releases: componentwise numeric comparison, a shorter
release padded with zeros (`5.2` = `5.2.0` < `5.2.13`).  When one side
runs out, the other side compares greater exactly when it still holds a
nonzero component. -/
def verCmp : List Nat → List Nat → Ordering
  | [], ys => if allZero ys then .eq else .lt
  | x :: xs, [] => if allZero (x :: xs) then .eq else .gt
  | x :: xs, y :: ys =>
      if x < y then .lt else if y < x then .gt else verCmp xs ys

/-- Strict semantic-version order, `parse x < parse y`. -/
def verLt (a b : List Nat) : Prop := verCmp a b = Ordering.lt

/-- Non-strict semantic-version order, `parse x <= parse y`. -/
def verLe (a b : List Nat) : Prop := verCmp a b ≠ Ordering.gt

instance (a b : List Nat) : Decidable (verLt a b) := by
  unfold verLt; infer_instance

instance (a b : List Nat) : Decidable (verLe a b) := by
  unfold verLe; infer_instance

/-- Outcome of `check_db_version`: normal return (version accepted),
process termination via `sys.exit code`, or an exception propagating
out of the function uncaught. -/
inductive GateOutcome where
  | accepted
  | exitCode (code : Nat)
  | raised (e : PyError)
deriving DecidableEq

/-- Embedding of `check_db_version` (utils.py lines 35-68).  The input
is the result of `puppetdb.current_version()`, a dotted numeric version
on success.  The `try` body applies the exclusion ranges in source
order, calling `sys.exit(1)` on the first hit (`sys.exit` raises
`SystemExit`, which none of the handlers catch, so the exit stands);
`HTTPError`, `ConnectionError` and `EmptyResponseError` from the fetch
each lead to `sys.exit(2)`; any other exception propagates. -/
def check_db_version (current_version : Except PyError (List Nat)) : GateOutcome :=
  match current_version with
  | .ok version =>
      if verLe [5, 2, 0] version ∧ verLt version [5, 2, 13] then .exitCode 1
      else if verLe [5, 3, 0] version ∧ verLt version [5, 3, 13] then .exitCode 1
      else if verLe [6, 0, 0] version ∧ verLt version [6, 9, 1] then .exitCode 1
      else if verLt version [5, 2, 13] then .exitCode 1
      else .accepted
  | .error (.httpError _) => .exitCode 2
  | .error .connectionError => .exitCode 2
  | .error .emptyResponseError => .exitCode 2
  | .error (.other name) => .raised (.other name)

/-- One step of a Python generator as observed through `next()`: either
a value is yielded or an exception escapes.  A generator is the finite
list of its steps; reaching the end of the list is `next()` raising
`StopIteration` (natural exhaustion).  `StopIteration` cannot escape a
generator body itself (PEP 479 turns it into `RuntimeError`), so every
mid-stream exception is a `PyError`. -/
inductive GenEvent (α : Type) where
  | yielded (a : α)
  | raised (e : PyError)
deriving DecidableEq

/-- The exception tuple of `yield_or_stop`'s `except` clause, minus
`StopIteration` (which is the end of the event list):
`EmptyResponseError`, `ConnectionError`, `HTTPError`. -/
def caught_in_yield_or_stop : PyError → Bool
  | .emptyResponseError => true
  | .connectionError => true
  | .httpError _ => true
  | .other _ => false

/-- Embedding of `yield_or_stop` (utils.py lines 142-153).  The result
is the list of values the wrapper yields, paired with the exception it
lets propagate to its consumer, if any: `while True`, each `next` that
yields is re-yielded; a caught exception (or `StopIteration`) makes the
wrapper `return` (clean end of stream, `none`); any other exception
propagates out of the `try` unhandled. -/
def yield_or_stop {α : Type} : List (GenEvent α) → List α × Option PyError
  | [] => ([], none)
  | .yielded a :: rest =>
      let r := yield_or_stop rest
      (a :: r.1, r.2)
  | .raised e :: _ =>
      if caught_in_yield_or_stop e then ([], none) else ([], some e)

/-- A Python value as `formatvalue` dispatches on it: a `str`, a
`list`, a `dict` (entries in insertion order, with the string keys the
code concatenates), an `int`, or any other object carrying its `str()`
rendering. -/
inductive PyValue where
  | str (s : String)
  | list (xs : List PyValue)
  | dict (entries : List (String × PyValue))
  | int (n : Int)
  | other (rep : String)

mutual

/-- Embedding of `formatvalue` (utils.py lines 85-96): a `str` is
returned unchanged; a `list` maps `formatvalue` over the elements and
joins with `", "`; a `dict` is folded with `ret += k + " => " +
formatvalue(value[k]) + ",<br/>"` over the keys in insertion order; any
other value is `str(value)`. -/
def formatvalue : PyValue → String
  | .str s => s
  | .list xs => String.intercalate ", " (formatvalue_list xs)
  | .dict entries => formatvalue_dict entries
  | .int n => toString n
  | .other rep => rep

/-- The `map(formatvalue, value)` of the `list` branch. -/
def formatvalue_list : List PyValue → List String
  | [] => []
  | v :: vs => formatvalue v :: formatvalue_list vs

/-- The `for k in value: ret += ...` accumulation of the `dict` branch. -/
def formatvalue_dict : List (String × PyValue) → String
  | [] => ""
  | (k, v) :: rest => k ++ " => " ++ formatvalue v ++ ",<br/>" ++ formatvalue_dict rest

end

/-- Result of the external `ast.literal_eval(value)` on a string: the
parsed typed value for a valid literal; for an invalid literal
expression, per its contract, a `ValueError` (malformed node or value)
or a `SyntaxError` (malformed syntax). -/
inductive LiteralEvalResult where
  | ok (v : PyValue)
  | valueError
  | syntaxError

/-- Embedding of `parse_python` (utils.py lines 71-82), parameterised
by the external `ast.literal_eval`: return its parse on success;
`except ValueError` and `except SyntaxError` both `return str(value)`,
which for a `str` argument is the argument unchanged.  The codomain
records whether an exception escapes. -/
def parse_python (literal_eval : String → LiteralEvalResult) (value : String) :
    Except PyError PyValue :=
  match literal_eval value with
  | .ok v => .ok v
  | .valueError => .ok (.str value)
  | .syntaxError => .ok (.str value)

/-- Embedding of `check_env` (utils.py lines 165-167): `abort(404)`
when `env != '*' and env not in envs`, otherwise fall through and
return `None`.  The result is the abort status, if any. -/
def check_env (env : String) (envs : List String) : Option Nat :=
  if env ≠ "*" ∧ env ∉ envs then some 404 else none

/-- Example oracle for `ast.literal_eval` used to instantiate
`parse_python` on the two concrete spec examples: the string
`"[1, 2, 3]"` parses to the integer list `1, 2, 3`; the malformed
string fails with a `SyntaxError`. -/
def literal_eval_examples : String → LiteralEvalResult := fun s =>
  if s = "[1, 2, 3]" then .ok (.list [.int 1, .int 2, .int 3]) else .syntaxError

/-- The `map(formatvalue, value)` helper is `List.map formatvalue`. -/
theorem formatvalue_list_eq_map (xs : List PyValue) :
    formatvalue_list xs = xs.map formatvalue := by
  induction xs with
  | nil => rfl
  | cons v vs ih => simp [formatvalue_list, ih]

/-- The dict accumulation concatenates one `key => value,<br/>` chunk
per entry, in order, with nothing stripped at the end. -/
theorem formatvalue_dict_eq_concat (es : List (String × PyValue)) :
    formatvalue_dict es =
      (es.map fun kv => kv.1 ++ " => " ++ formatvalue kv.2 ++ ",<br/>").foldr (· ++ ·) "" := by
  induction es with
  | nil => rfl
  | cons kv rest ih => cases kv with
    | mk k v => simp [formatvalue_dict, ih, String.append_assoc]

/-- C1: an HTTP error with a client status code in `[400, 499]` is
re-raised unchanged by `get_or_abort_except_client_errors`; any HTTP
status outside that range makes it abort with that exact status; and
`get_or_abort` aborts with the exact carried status for every HTTP
status code. -/
theorem http_error_status_dispatch (α : Type) (c : Nat) :
    get_or_abort_except_client_errors (Except.error (PyError.httpError c) : Except PyError α) =
      (if 400 ≤ c ∧ c ≤ 499 then GetOutcome.reraise (PyError.httpError c)
       else GetOutcome.abort c) ∧
    get_or_abort (Except.error (PyError.httpError c) : Except PyError α) =
      GetOutcome.abort c := by
  constructor
  · simp only [get_or_abort_except_client_errors, _do_get_or_abort]
    split_ifs <;> simp_all
  · simp only [get_or_abort, _do_get_or_abort]
    split_ifs <;> simp_all

/-- C2: under either value of the reraise-client-errors flag, a
connection error aborts with 500, an empty backend response aborts
with 204, and any unclassified error aborts with 500. -/
theorem backend_error_dispatch (α : Type) (b : Bool) (s : String) :
    _do_get_or_abort b (Except.error PyError.connectionError : Except PyError α) =
      GetOutcome.abort 500 ∧
    _do_get_or_abort b (Except.error PyError.emptyResponseError : Except PyError α) =
      GetOutcome.abort 204 ∧
    _do_get_or_abort b (Except.error (PyError.other s) : Except PyError α) =
      GetOutcome.abort 500 :=
  ⟨rfl, rfl, rfl⟩

/-- C3: the version gate exits with code 1 exactly when the fetched
version lies in `[5.2.0, 5.2.13)`, `[5.3.0, 5.3.13)`, `[6.0.0, 6.9.1)`
or below the absolute floor `5.2.13`, under semantic-version ordering;
every other fetched version is accepted with a normal return. -/
theorem check_db_version_gate (v : List Nat) :
    (check_db_version (Except.ok v) = GateOutcome.exitCode 1 ↔
      ((verLe [5, 2, 0] v ∧ verLt v [5, 2, 13]) ∨
       (verLe [5, 3, 0] v ∧ verLt v [5, 3, 13]) ∨
       (verLe [6, 0, 0] v ∧ verLt v [6, 9, 1]) ∨
       verLt v [5, 2, 13])) ∧
    (check_db_version (Except.ok v) = GateOutcome.accepted ↔
      ¬((verLe [5, 2, 0] v ∧ verLt v [5, 2, 13]) ∨
        (verLe [5, 3, 0] v ∧ verLt v [5, 3, 13]) ∨
        (verLe [6, 0, 0] v ∧ verLt v [6, 9, 1]) ∨
        verLt v [5, 2, 13])) := by
  simp only [check_db_version]
  split_ifs <;> simp_all

/-- C4: when fetching or parsing the backend version fails with an
HTTP error, a connection error, or an empty backend response, the gate
exits with code 2 (so never code 1 and never a normal return). -/
theorem version_fetch_failure_exits_2 (c : Nat) :
    check_db_version (Except.error (PyError.httpError c)) = GateOutcome.exitCode 2 ∧
    check_db_version (Except.error PyError.connectionError) = GateOutcome.exitCode 2 ∧
    check_db_version (Except.error PyError.emptyResponseError) = GateOutcome.exitCode 2 :=
  ⟨rfl, rfl, rfl⟩

/-- C5: a source that yields a finite front of elements and then
raises a connection error, an empty-response error or an HTTP error —
or exhausts naturally — is passed through by `yield_or_stop` as exactly
that front, in order, ending cleanly with no error surfaced. -/
theorem yield_or_stop_clean_stop {α : Type} (front : List α) (e : PyError)
    (h : e = PyError.connectionError ∨ e = PyError.emptyResponseError ∨
         ∃ c, e = PyError.httpError c) :
    yield_or_stop (front.map GenEvent.yielded ++ [GenEvent.raised e]) = (front, none) ∧
    yield_or_stop (front.map GenEvent.yielded) = (front, none) := by
  have hc : caught_in_yield_or_stop e = true := by
    rcases h with h | h | ⟨c, h⟩ <;> subst h <;> rfl
  constructor
  · induction front with
    | nil => simp [yield_or_stop, hc]
    | cons x xs ih => simp [yield_or_stop, ih]
  · induction front with
    | nil => rfl
    | cons x xs ih => simp [yield_or_stop, ih]

/-- Witness for C5 at the spec's example: yielding 1, 2, 3 and then a
connection error produces exactly the list 1, 2, 3. -/
theorem yield_or_stop_clean_stop_witness :
    yield_or_stop ([1, 2, 3].map GenEvent.yielded ++
      [GenEvent.raised PyError.connectionError]) = ([1, 2, 3], none) :=
  (yield_or_stop_clean_stop [1, 2, 3] PyError.connectionError (Or.inl rfl)).1

/-- C10: an error that is none of the three guarded kinds (and not
natural exhaustion) is propagated unchanged to the consumer after the
front already yielded, not converted to a clean end of stream. -/
theorem yield_or_stop_propagates_unclassified {α : Type} (front : List α) (s : String) :
    yield_or_stop (front.map GenEvent.yielded ++ [GenEvent.raised (PyError.other s)]) =
      (front, some (PyError.other s)) := by
  induction front with
  | nil => rfl
  | cons x xs ih => simp [yield_or_stop, ih]

/-- C6: `formatvalue` returns strings unchanged, formats sequences
recursively joined with `", "`, renders mappings as the concatenation
of `key => formatted(value),<br/>` per entry in insertion order with
the trailing `,<br/>` not stripped, renders other values by their
default string representation, and on the dict `a ↦ 1, b ↦ 2` yields
`a => 1,<br/>b => 2,<br/>`. -/
theorem formatvalue_spec :
    (∀ s, formatvalue (PyValue.str s) = s) ∧
    (∀ xs, formatvalue (PyValue.list xs) =
      String.intercalate ", " (xs.map formatvalue)) ∧
    (∀ es, formatvalue (PyValue.dict es) =
      (es.map fun kv => kv.1 ++ " => " ++ formatvalue kv.2 ++ ",<br/>").foldr (· ++ ·) "") ∧
    (∀ n, formatvalue (PyValue.int n) = toString n) ∧
    (∀ rep, formatvalue (PyValue.other rep) = rep) ∧
    formatvalue (PyValue.dict [("a", PyValue.str "1"), ("b", PyValue.str "2")]) =
      "a => 1,<br/>b => 2,<br/>" :=
  ⟨fun _ => rfl,
   fun xs => by rw [formatvalue, formatvalue_list_eq_map],
   fun es => by rw [formatvalue, formatvalue_dict_eq_concat],
   fun _ => rfl,
   fun _ => rfl,
   rfl⟩

/-- C7: `parse_python` returns the typed value for every string that
`ast.literal_eval` parses as a valid literal, returns the original
string unchanged when parsing fails with a value error or malformed
syntax, and never lets an exception escape. -/
theorem parse_python_spec (le : String → LiteralEvalResult) (s : String) :
    (∀ v, le s = LiteralEvalResult.ok v → parse_python le s = Except.ok v) ∧
    ((le s = LiteralEvalResult.valueError ∨ le s = LiteralEvalResult.syntaxError) →
      parse_python le s = Except.ok (PyValue.str s)) ∧
    ∃ r, parse_python le s = Except.ok r := by
  refine ⟨fun v h => by simp [parse_python, h], fun h => ?_, ?_⟩
  · rcases h with h | h <;> simp [parse_python, h]
  · unfold parse_python
    cases le s <;> exact ⟨_, rfl⟩

/-- Witness for C7 at the spec's two examples: a valid list literal
parses to the typed list, and a malformed string comes back unchanged. -/
theorem parse_python_spec_witness :
    parse_python literal_eval_examples "[1, 2, 3]" =
      Except.ok (PyValue.list [PyValue.int 1, PyValue.int 2, PyValue.int 3]) ∧
    parse_python literal_eval_examples "not valid syntax \x7b" =
      Except.ok (PyValue.str "not valid syntax \x7b") :=
  ⟨(parse_python_spec literal_eval_examples "[1, 2, 3]").1 _ rfl,
   (parse_python_spec literal_eval_examples "not valid syntax \x7b").2.1 (Or.inr rfl)⟩

/-- C8: `check_env` succeeds silently exactly when the requested name
is the wildcard `*` or a member of the known environments, and aborts
with HTTP 404 in every other case. -/
theorem check_env_spec (env : String) (envs : List String) :
    (check_env env envs = none ↔ env = "*" ∨ env ∈ envs) ∧
    (check_env env envs = some 404 ↔ ¬(env = "*" ∨ env ∈ envs)) := by
  unfold check_env
  split_ifs with h <;> simp_all
  tauto

/-- C9: a call that raises no error has its result returned unchanged
by both wrappers, with no abort and no re-raise. -/
theorem get_or_abort_success_identity (α : Type) (a : α) :
    get_or_abort (Except.ok a) = GetOutcome.value a ∧
    get_or_abort_except_client_errors (Except.ok a) = GetOutcome.value a :=
  ⟨rfl, rfl⟩

end Puppetboard
